import Mathlib

/-
Verification of the session lifecycle, job submission/polling and device
filtering core of cirq-scaleway, shallowly embedded in Lean 4.

Conventions of the embedding:
* Python exceptions are modelled by `PyResult`, carrying the exception
  message string in the `exc` case.
* The remote API client (`QaaSClient`) is modelled as an environment of
  oracles giving the outcome of each remote call.
* Machine time advances only during `time.sleep(fetch_interval)`; every
  remote call is instantaneous.  Elapsed wall-clock time after the sleep
  of the i-th loop iteration (0-based) is therefore `(i+1) * fetch_interval`.
* Unbounded `while True` loops are embedded with an explicit fuel
  parameter; `none` means the fuel ran out before the loop returned.
-/

namespace CirqScaleway

/-- Outcome of a Python expression or statement: a value, or a raised
exception carrying its message. -/
inductive PyResult (α : Type) where
  | ok (a : α)
  | exc (msg : String)
deriving DecidableEq, Repr

/-- Python truthiness of the optional session identifier field
(`self.__id`): `None` and the empty string are falsy. -/
def truthy : Option String → Bool
  | none => false
  | some s => !(s == "")

/-- Mutable state of a `ScalewaySession` instance: only the bound
identifier changes over its lifetime (`self.__id`, initially `None`). -/
structure SessionState where
  id : Option String
deriving DecidableEq, Repr

/-- Oracle for the remote API client calls used by the session lifecycle:
outcome of `create_session` (the returned id), `terminate_session`,
`delete_session`, and `get_session` (the returned status, per id). -/
structure ClientEnv where
  create_session : PyResult String
  terminate_session : PyResult Unit
  delete_session : PyResult Unit
  get_session : String → PyResult String

/-- Embedding of `ScalewaySession.start`: raises if `self.__id` is truthy,
otherwise issues the remote create and binds the returned id. -/
def start (env : ClientEnv) (s : SessionState) : PyResult Unit × SessionState :=
  if truthy s.id then (PyResult.exc "session already started", s)
  else
    match env.create_session with
    | PyResult.exc e => (PyResult.exc e, s)
    | PyResult.ok newId => (PyResult.ok (), { id := some newId })

/-- Embedding of `ScalewaySession.stop`: raises if `self.__id` is falsy,
otherwise issues the remote terminate.  The identifier is not cleared. -/
def stop (env : ClientEnv) (s : SessionState) : PyResult Unit × SessionState :=
  if truthy s.id then
    match env.terminate_session with
    | PyResult.exc e => (PyResult.exc e, s)
    | PyResult.ok _ => (PyResult.ok (), s)
  else (PyResult.exc "session not started", s)

/-- Embedding of `ScalewaySession.delete`: raises if `self.__id` is falsy,
otherwise issues the remote delete.  The identifier is not cleared. -/
def delete (env : ClientEnv) (s : SessionState) : PyResult Unit × SessionState :=
  if truthy s.id then
    match env.delete_session with
    | PyResult.exc e => (PyResult.exc e, s)
    | PyResult.ok _ => (PyResult.ok (), s)
  else (PyResult.exc "session not started", s)

/-- Embedding of the `ScalewaySession.status` property.  The second
component counts the `get_session` network calls performed (0 or 1).
`if not self.__id: return "unknown_status"` covers both an absent id and
an empty-string id. -/
def status (env : ClientEnv) (s : SessionState) : PyResult String × Nat :=
  match s.id with
  | none => (PyResult.ok "unknown_status", 0)
  | some i =>
    if i == "" then (PyResult.ok "unknown_status", 0)
    else (env.get_session i, 1)

/-- Lifecycle events observable on a `with` block around a session. -/
inductive LifecycleEv where
  | startCalled
  | stopCalled
deriving DecidableEq, Repr

/-- Embedding of `with session: body`, following CPython semantics for the
`with` statement together with `ScalewaySession.__enter__` (calls
`start()`) and `__exit__` (calls `stop()` and returns `False`):
if `__enter__` raises the body never runs and `__exit__` is not called;
if `__exit__` raises, that exception propagates in place of any body
exception; if `__exit__` returns `False`, a body exception propagates.
The third component records which lifecycle methods were invoked. -/
def with_session {α : Type} (env : ClientEnv) (s : SessionState)
    (body : SessionState → PyResult α × SessionState) :
    PyResult α × SessionState × List LifecycleEv :=
  match start env s with
  | (PyResult.exc e, s1) => (PyResult.exc e, s1, [LifecycleEv.startCalled])
  | (PyResult.ok _, s1) =>
    let bodyOut := body s1
    match stop env bodyOut.2 with
    | (PyResult.exc e2, s3) =>
      (PyResult.exc e2, s3, [LifecycleEv.startCalled, LifecycleEv.stopCalled])
    | (PyResult.ok _, s3) =>
      (bodyOut.1, s3, [LifecycleEv.startCalled, LifecycleEv.stopCalled])

/-- Remote job record as seen by one `get_job` call. -/
structure QaaSJob where
  status : String
  progress_message : String
deriving DecidableEq, Repr

/-- Remote job result record: optional inline payload and optional URL. -/
structure QaaSJobResult where
  result : Option String
  url : Option String
deriving DecidableEq, Repr

/-- Oracle for the polling loop: the job record returned by the i-th
`get_job` call (0-based), and the list returned by `list_job_results`
once the job is completed. -/
structure PollEnv where
  getJob : Nat → QaaSJob
  listJobResults : List QaaSJobResult

/-- Embedding of `_DEFAULT_FETCH_INTERVAL = 2` (seconds). -/
def DEFAULT_FETCH_INTERVAL : Nat := 2

/-- Embedding of `_DEFAULT_TIMEOUT = 60 * 360` (seconds). -/
def DEFAULT_TIMEOUT : Nat := 60 * 360

/-- Test `timeout is not None and elapsed >= timeout`. -/
def timeout_reached : Option Nat → Nat → Bool
  | none, _ => false
  | some t, elapsed => decide (t ≤ elapsed)

/-- Embedding of the `while True` loop of `_wait_for_result`, with fuel.
Iteration `i` (0-based) first sleeps `fetch_interval` seconds (elapsed
becomes `(i+1) * fetch_interval`), raises the timeout error if the
elapsed time reached the timeout, otherwise performs the i-th `get_job`
call and dispatches on its status.  The second component of a returned
pair counts the `get_job` calls performed. -/
def wait_for_result_aux (env : PollEnv) (fetch_interval : Nat)
    (timeout : Option Nat) :
    Nat → Nat → Option (Except String (List QaaSJobResult) × Nat)
  | 0, _ => none
  | Nat.succ fuel, i =>
    let elapsed := (i + 1) * fetch_interval
    if timeout_reached timeout elapsed then
      some (Except.error "Timed out waiting for result", i)
    else
      let job := env.getJob i
      if job.status == "completed" then
        some (Except.ok env.listJobResults, i + 1)
      else if (["error", "unknown_status"] : List String).contains job.status then
        some (Except.error ("Job failed: " ++ job.progress_message), i + 1)
      else
        wait_for_result_aux env fetch_interval timeout fuel (i + 1)

/-- Embedding of `ScalewaySession._wait_for_result` (loop entered at
iteration 0, zero elapsed time). -/
def wait_for_result (env : PollEnv) (fetch_interval : Nat)
    (timeout : Option Nat) (fuel : Nat) :
    Option (Except String (List QaaSJobResult) × Nat) :=
  wait_for_result_aux env fetch_interval timeout fuel 0

/-- HTTP response as seen through `httpx.get`. -/
structure HttpResponse where
  status_code : Nat
  text : String
deriving DecidableEq, Repr

/-- Oracle for `httpx.get`: the response each URL yields now. -/
abbrev HttpEnv := String → HttpResponse

/-- Embedding of the url branch of `_extract_payload_from_response`:
`if url is not None: resp = httpx.get(url); resp.raise_for_status();
result = resp.text else: raise RuntimeError(...)`.  `raise_for_status`
raises on status codes 400 and above; the message string
"HTTP status error" stands for the `httpx.HTTPStatusError` it raises.
The second component counts the HTTP GET requests performed. -/
def fetch_from_url (http : HttpEnv) (url : Option String) :
    Except String String × Nat :=
  match url with
  | some u =>
    let resp := http u
    if 400 ≤ resp.status_code then (Except.error "HTTP status error", 1)
    else (Except.ok resp.text, 1)
  | none => (Except.error "Got result with empty data and url fields", 0)

/-- Embedding of `ScalewaySession._extract_payload_from_response` up to
the final `QuantumProgramResult.from_json_str` parse: selects the
payload string that will be decoded.  `result is None or result == ""`
sends decoding to the url branch.  The second component counts the
HTTP GET requests performed. -/
def extract_payload_from_response (http : HttpEnv) (jr : QaaSJobResult) :
    Except String String × Nat :=
  match jr.result with
  | some r =>
    if r == "" then fetch_from_url http jr.url
    else (Except.ok r, 0)
  | none => fetch_from_url http jr.url

/-- Remote model handle returned by `create_model`. -/
structure ModelHandle where
  id : String
deriving DecidableEq, Repr

/-- Oracle for `_submit`: outcome of `create_model` (`none` models a
falsy return, making `if not model` fire), the id returned by
`create_job`, and the polling oracle for the created job. -/
structure SubmitEnv where
  create_model : Option ModelHandle
  create_job_id : String
  poll : PollEnv

/-- Embedding of `ScalewaySession._submit` for one serialized program:
push the model, create the job, wait for the result with the default
fetch interval and timeout, require exactly one job result, then decode
its payload.  `decode` abstracts
`QuantumProgramResult.from_json_str(...).to_cirq_result()` and may
itself raise.  `none` means the polling fuel ran out. -/
def submit {T : Type} (env : SubmitEnv) (http : HttpEnv)
    (decode : String → Except String T) (fuel : Nat) :
    Option (Except String T) :=
  match env.create_model with
  | none => some (Except.error "Failed to push circuit data")
  | some _ =>
    match wait_for_result env.poll DEFAULT_FETCH_INTERVAL
        (some DEFAULT_TIMEOUT) fuel with
    | none => none
    | some (Except.error e, _) => some (Except.error e)
    | some (Except.ok job_results, _) =>
      match job_results with
      | [jr] =>
        match extract_payload_from_response http jr with
        | (Except.error e, _) => some (Except.error e)
        | (Except.ok payload, _) => some (decode payload)
      | _ => some (Except.error "Expected a single result for Cirq job")

/-- Value held by the local variable `program` inside `run_sweep`: the
parameter starts as a cirq circuit, but the loop body reassigns it to
the `QuantumProgram` built by `QuantumProgram.from_cirq_circuit`. -/
inductive ProgVal (C Q : Type) where
  | circuit (c : C)
  | qprog (q : Q)
deriving DecidableEq, Repr

/-- Embedding of `cirq.protocols.resolve_parameters` as used in
`run_sweep`: a circuit is resolved through the framework's resolution
function; a value that does not implement the `_resolve_parameters_`
protocol (such as a `QuantumProgram`) is returned unchanged, per the
cirq protocol contract. -/
def resolve_parameters {C Q R : Type} (resolveCircuit : C → R → C) :
    ProgVal C Q → R → ProgVal C Q
  | ProgVal.circuit c, r => ProgVal.circuit (resolveCircuit c r)
  | ProgVal.qprog q, _ => ProgVal.qprog q

/-- Dataflow of the `run_sweep` loop restricted to the submitted
payloads: each iteration computes
`circuit = resolve_parameters(program, r)` and then reassigns
`program = from_cirq_circuit(circuit)`, which is the payload handed to
`_submit`.  Returns the submitted payloads in order. -/
def run_sweep_programs {C Q R : Type} (from_cirq_circuit : ProgVal C Q → Q)
    (resolveCircuit : C → R → C) :
    ProgVal C Q → List R → List Q
  | _, [] => []
  | pv, r :: rs =>
    let circuit := resolve_parameters resolveCircuit pv r
    let qp := from_cirq_circuit circuit
    qp :: run_sweep_programs from_cirq_circuit resolveCircuit (ProgVal.qprog qp) rs

/-- Embedding of the `run_sweep` loop including results: each iteration
resolves, serializes (reassigning `program`), submits, and appends the
result; the first raised exception aborts the sweep. -/
def run_sweep_aux {C Q R T : Type} (from_cirq_circuit : ProgVal C Q → Q)
    (resolveCircuit : C → R → C) (submitF : Q → Except String T) :
    ProgVal C Q → List R → Except String (List T)
  | _, [] => Except.ok []
  | pv, r :: rs =>
    let circuit := resolve_parameters resolveCircuit pv r
    let qp := from_cirq_circuit circuit
    match submitF qp with
    | Except.error e => Except.error e
    | Except.ok res =>
      match run_sweep_aux from_cirq_circuit resolveCircuit submitF
          (ProgVal.qprog qp) rs with
      | Except.error e => Except.error e
      | Except.ok rest => Except.ok (res :: rest)

/-- Embedding of `ScalewaySession.run_sweep`: raises "session not
started" when `self.__id` is falsy, then runs the sweep loop starting
from the original circuit. -/
def run_sweep {C Q R T : Type} (id : Option String)
    (from_cirq_circuit : ProgVal C Q → Q) (resolveCircuit : C → R → C)
    (submitF : Q → Except String T) (program : C) (params : List R) :
    Except String (List T) :=
  if truthy id then
    run_sweep_aux from_cirq_circuit resolveCircuit submitF
      (ProgVal.circuit program) params
  else Except.error "session not started"

/-- Concrete injective serialization used to distinguish payloads when
instantiating the sweep model on natural numbers: circuits and
`QuantumProgram`s land in disjoint codes. -/
def encodeProgVal : ProgVal Nat Nat → Nat
  | ProgVal.circuit c => 2 * c
  | ProgVal.qprog q => 2 * q + 1

/-- Platform record as returned by `list_platforms`. -/
structure Platform where
  id : String
  backend_name : String
  num_qubits : Nat
deriving DecidableEq, Repr

/-- Oracle for `get_platform(id).get("availability")`: the live
availability string of each platform id (`ScalewayDevice.availability`
fetches it on every access, it is never cached). -/
abbrev PlatformEnv := String → String

/-- Embedding of the `ScalewayDevice.availability` property. -/
def availability (env : PlatformEnv) (p : Platform) : String := env p.id

/-- Embedding of `ScalewayQuantumService._filters`: when the
`operational` keyword was supplied (with any value), keep the backends
whose live availability is "available" or "scarce"; when
`min_num_qubits` was supplied, keep the backends with at least that
many qubits. -/
def filters (env : PlatformEnv) (operational : Option Bool)
    (min_num_qubits : Option Nat) (backends : List Platform) :
    List Platform :=
  let backends := match operational with
    | none => backends
    | some _ => backends.filter (fun b =>
        availability env b == "available" || availability env b == "scarce")
  match min_num_qubits with
  | none => backends
  | some n => backends.filter (fun b => n ≤ b.num_qubits)

/-- Same filters applied in the opposite order (`min_num_qubits` before
`operational`), used to state order-independence. -/
def filters_swapped (env : PlatformEnv) (operational : Option Bool)
    (min_num_qubits : Option Nat) (backends : List Platform) :
    List Platform :=
  let backends := match min_num_qubits with
    | none => backends
    | some n => backends.filter (fun b => n ≤ b.num_qubits)
  match operational with
  | none => backends
  | some _ => backends.filter (fun b =>
      availability env b == "available" || availability env b == "scarce")

/-- Embedding of `ScalewayQuantumService.devices`: keep the platforms of
backend kind "qsim", then apply the post-filters (`filters` is always
applied; with both keywords absent it is the identity). -/
def devices (env : PlatformEnv) (platforms : List Platform)
    (operational : Option Bool) (min_num_qubits : Option Nat) :
    List Platform :=
  let scaleway_platforms := platforms.filter (fun p => p.backend_name == "qsim")
  filters env operational min_num_qubits scaleway_platforms

/-- Client oracle whose remote calls all succeed. -/
def clientEnvOk : ClientEnv where
  create_session := PyResult.ok "sid-1"
  terminate_session := PyResult.ok ()
  delete_session := PyResult.ok ()
  get_session := fun _ => PyResult.ok "running"

/-- Client oracle whose `terminate_session` call raises. -/
def clientEnvStopFails : ClientEnv where
  create_session := PyResult.ok "sid-2"
  terminate_session := PyResult.exc "terminate failed"
  delete_session := PyResult.ok ()
  get_session := fun _ => PyResult.ok "running"

/-- Block body that raises. -/
def bodyBoom : SessionState → PyResult Unit × SessionState :=
  fun s => (PyResult.exc "body boom", s)

/-- Job record that stays queued forever. -/
def queuedJob : QaaSJob where
  status := "queued"
  progress_message := ""

/-- Polling oracle whose job never leaves the queued state. -/
def pollEnvQueued : PollEnv where
  getJob := fun _ => queuedJob
  listJobResults := []

/-- Polling oracle whose job fails immediately with a crash message. -/
def pollEnvCrashed : PollEnv where
  getJob := fun _ => { status := "error", progress_message := "simulator crashed" }
  listJobResults := []

/-- Polling oracle whose job completes immediately with an empty result
list. -/
def pollEnvEmptyResults : PollEnv where
  getJob := fun _ => { status := "completed", progress_message := "" }
  listJobResults := []

/-- HTTP oracle answering every URL with a 200 response. -/
def httpEnvOk : HttpEnv := fun _ => { status_code := 200, text := "body" }

/-- Submission oracle whose model push succeeds and whose job completes
immediately with an empty result list. -/
def submitEnvEmptyResults : SubmitEnv where
  create_model := some { id := "model-1" }
  create_job_id := "job-1"
  poll := pollEnvEmptyResults

/-- C6: on a fresh session, `stop()` and `delete()` raise "session not
started"; a successful `start()` binds the returned (nonempty) id;
`start()` on a started session raises "session already started", and it
still does so after an intervening `stop()` because `stop()` never
clears the identifier — the instance is single-use. -/
theorem session_lifecycle_single_use
    (env env2 env3 : ClientEnv) (i : String)
    (hcreate : env.create_session = PyResult.ok i) (hne : i ≠ "") :
    (stop env2 { id := none }).1 = PyResult.exc "session not started" ∧
    (delete env2 { id := none }).1 = PyResult.exc "session not started" ∧
    start env { id := none } = (PyResult.ok (), { id := some i }) ∧
    (start env2 { id := some i }).1 = PyResult.exc "session already started" ∧
    (stop env3 { id := some i }).2 = { id := some i } ∧
    (start env2 (stop env3 { id := some i }).2).1 =
      PyResult.exc "session already started" := by
  have htruthy : truthy (some i) = true := by
    simp [truthy, hne]
  refine ⟨?_, ?_, ?_, ?_, ?_, ?_⟩
  · simp [stop, truthy]
  · simp [delete, truthy]
  · simp [start, truthy, hcreate]
  · simp [start, htruthy]
  · cases h : env3.terminate_session <;> simp [stop, htruthy, h]
  · cases h : env3.terminate_session <;> simp [stop, start, htruthy, h]

/-- C6 witness at a concrete client oracle. -/
theorem session_lifecycle_single_use_witness :
    (stop clientEnvOk { id := none }).1 = PyResult.exc "session not started" ∧
    (delete clientEnvOk { id := none }).1 = PyResult.exc "session not started" ∧
    start clientEnvOk { id := none } = (PyResult.ok (), { id := some "sid-1" }) ∧
    (start clientEnvOk { id := some "sid-1" }).1 =
      PyResult.exc "session already started" ∧
    (stop clientEnvOk { id := some "sid-1" }).2 = { id := some "sid-1" } ∧
    (start clientEnvOk (stop clientEnvOk { id := some "sid-1" }).2).1 =
      PyResult.exc "session already started" :=
  session_lifecycle_single_use clientEnvOk clientEnvOk clientEnvOk "sid-1"
    rfl (by decide)

/-- C3 counterexample: with no identifier bound, the status query
returns the string "unknown_status", not the value "unknown" the claim
states (and it performs no network call). -/
theorem status_unbound_returns_unknown_status_not_unknown :
    status clientEnvOk { id := none } = (PyResult.ok "unknown_status", 0) ∧
    (PyResult.ok "unknown_status" : PyResult String) ≠ PyResult.ok "unknown" :=
  ⟨rfl, by decide⟩

/-- C3 amended: with no identifier bound the status query returns
"unknown_status" with zero network calls; with a (nonempty) identifier
bound, every access returns exactly what `get_session` answers right
now, with exactly one network call — nothing is cached. -/
theorem status_query_semantics (env : ClientEnv) (s : SessionState) :
    (s.id = none → status env s = (PyResult.ok "unknown_status", 0)) ∧
    (∀ i, s.id = some i → i ≠ "" → status env s = (env.get_session i, 1)) := by
  constructor
  · intro h
    simp [status, h]
  · intro i h hne
    simp [status, h, hne]

/-- C3 witness at a concrete client oracle and bound session. -/
theorem status_query_semantics_witness :
    status clientEnvOk { id := some "sid-1" } =
      (clientEnvOk.get_session "sid-1", 1) :=
  (status_query_semantics clientEnvOk { id := some "sid-1" }).2 "sid-1" rfl
    (by decide)

/-- C2 counterexample: when the block body raises "body boom" and
`stop()` raises "terminate failed" during unwind, the propagated error
is the stop failure — it masks the body error, contrary to the claim. -/
theorem with_session_stop_failure_masks_body_error :
    (with_session clientEnvStopFails { id := none } bodyBoom).1 =
      PyResult.exc "terminate failed" ∧
    (PyResult.exc "terminate failed" : PyResult Unit) ≠
      PyResult.exc "body boom" :=
  ⟨rfl, by decide⟩

/-- C2 amended: entering a managed block calls `start()` and leaving it
calls `stop()` on every exit path after a successful start (body
success or body exception alike); if `stop()` completes, the body's
outcome — including its exception — propagates; but if `stop()` itself
raises during unwind, the stop failure propagates and masks the body's
error. -/
theorem with_session_start_stop_semantics {α : Type} (env : ClientEnv)
    (s : SessionState) (body : SessionState → PyResult α × SessionState)
    (i : String) (hcreate : env.create_session = PyResult.ok i)
    (hunstarted : truthy s.id = false) :
    (with_session env s body).2.2 =
      [LifecycleEv.startCalled, LifecycleEv.stopCalled] ∧
    (∀ e2, (stop env (body { id := some i }).2).1 = PyResult.exc e2 →
      (with_session env s body).1 = PyResult.exc e2) ∧
    ((stop env (body { id := some i }).2).1 = PyResult.ok () →
      (with_session env s body).1 = (body { id := some i }).1) := by
  have hstart : start env s = (PyResult.ok (), { id := some i }) := by
    simp [start, hunstarted, hcreate]
  cases hstop : stop env (body { id := some i }).2 with
  | mk r s3 =>
    cases r with
    | ok u =>
      refine ⟨?_, ?_, ?_⟩ <;>
        simp [with_session, hstart, hstop]
    | exc e =>
      refine ⟨?_, ?_, ?_⟩ <;>
        simp [with_session, hstart, hstop]

/-- C2 amended witness: at a concrete oracle whose stop succeeds, the
block performs start then stop and propagates the body's exception. -/
theorem with_session_start_stop_semantics_witness :
    (with_session clientEnvOk { id := none } bodyBoom).2.2 =
      [LifecycleEv.startCalled, LifecycleEv.stopCalled] ∧
    (with_session clientEnvOk { id := none } bodyBoom).1 =
      PyResult.exc "body boom" := by
  have h := with_session_start_stop_semantics clientEnvOk { id := none }
    bodyBoom "sid-1" rfl rfl
  exact ⟨h.1, h.2.2 rfl⟩

theorem wait_aux_times_out (env : PollEnv) (iv tmo : Nat)
    (hnt : ∀ i, (env.getJob i).status ≠ "completed" ∧
      (env.getJob i).status ≠ "error" ∧
      (env.getJob i).status ≠ "unknown_status") :
    ∀ fuel i, 1 ≤ fuel → tmo ≤ (i + fuel) * iv →
    ∃ n, wait_for_result_aux env iv (some tmo) fuel i =
        some (Except.error "Timed out waiting for result", n) ∧
      i ≤ n ∧ tmo ≤ (n + 1) * iv ∧ (n * iv < tmo ∨ n = i) := by
  intro fuel
  induction fuel with
  | zero => intro i h; omega
  | succ f ih =>
    intro i _ hto
    by_cases hre : tmo ≤ (i + 1) * iv
    · have htr : timeout_reached (some tmo) ((i + 1) * iv) = true := by
        simp [timeout_reached, hre]
      refine ⟨i, ?_, le_refl i, hre, Or.inr rfl⟩
      simp [wait_for_result_aux, htr]
    · have htr : timeout_reached (some tmo) ((i + 1) * iv) = false := by
        simp [timeout_reached]
        omega
      obtain ⟨h1, h2, h3⟩ := hnt i
      have hf1 : 1 ≤ f := by
        by_contra hf
        have hf0 : f = 0 := by omega
        subst hf0
        have hcontra : tmo ≤ (i + 1) * iv := by simpa using hto
        exact hre hcontra
      have hrec : tmo ≤ (i + 1 + f) * iv := by
        have : i + 1 + f = i + (f + 1) := by omega
        rw [this]
        exact hto
      obtain ⟨n, heq, hin, htoub, hor⟩ := ih (i + 1) hf1 hrec
      refine ⟨n, ?_, by omega, htoub, ?_⟩
      · simp [wait_for_result_aux, htr, h1, h2, h3]
        exact heq
      · rcases hor with h | h
        · exact Or.inl h
        · subst h
          exact Or.inl (by omega)

/-- C5: with a positive fetch interval and timeout, when the remote job
status never becomes completed, error or unknown_status, the poller
(sleeping one fetch interval per iteration, so elapsed time after the
i-th sleep is `(i+1) * interval`) raises "Timed out waiting for result"
at the first iteration whose elapsed time reaches or exceeds the
timeout; the defaults are 2 seconds and 21600 seconds; the returned
count `n` is the total number of `get_job` status fetches performed,
all of which happened strictly before the timeout elapsed (and the
function returns at the failure, so no fetch follows it). -/
theorem wait_for_result_times_out (env : PollEnv) (iv tmo fuel : Nat)
    (hiv : 1 ≤ iv) (hto : 1 ≤ tmo) (hfuel : tmo ≤ fuel)
    (hnt : ∀ i, (env.getJob i).status ≠ "completed" ∧
      (env.getJob i).status ≠ "error" ∧
      (env.getJob i).status ≠ "unknown_status") :
    DEFAULT_FETCH_INTERVAL = 2 ∧ DEFAULT_TIMEOUT = 21600 ∧
    ∃ n, wait_for_result env iv (some tmo) fuel =
        some (Except.error "Timed out waiting for result", n) ∧
      n * iv < tmo ∧ tmo ≤ (n + 1) * iv := by
  refine ⟨rfl, rfl, ?_⟩
  have hfuel1 : 1 ≤ fuel := le_trans hto hfuel
  have h0 : tmo ≤ (0 + fuel) * iv := by
    calc tmo ≤ fuel := hfuel
    _ = fuel * 1 := (Nat.mul_one fuel).symm
    _ ≤ fuel * iv := Nat.mul_le_mul_left fuel hiv
    _ = (0 + fuel) * iv := by rw [Nat.zero_add]
  obtain ⟨n, heq, _, htoub, hor⟩ :=
    wait_aux_times_out env iv tmo hnt fuel 0 hfuel1 h0
  refine ⟨n, heq, ?_, htoub⟩
  rcases hor with h | h
  · exact h
  · subst h
    omega

/-- C5 witness at a concrete always-queued polling oracle. -/
theorem wait_for_result_times_out_witness :
    DEFAULT_FETCH_INTERVAL = 2 ∧ DEFAULT_TIMEOUT = 21600 ∧
    ∃ n, wait_for_result pollEnvQueued 1 (some 3) 3 =
        some (Except.error "Timed out waiting for result", n) ∧
      n * 1 < 3 ∧ 3 ≤ (n + 1) * 1 := by
  have h := wait_for_result_times_out pollEnvQueued 1 3 3
    (by decide) (by decide) (by decide)
    (fun i => by simp [pollEnvQueued, queuedJob])
  exact h

/-- C10: the poller sleeps one full fetch interval before its first
`get_job` fetch, so whenever the timeout is at most the fetch interval
it raises the timeout error with zero status fetches performed. -/
theorem wait_for_result_timeout_before_first_fetch (env : PollEnv)
    (iv tmo fuel : Nat) (hto : tmo ≤ iv) (hfuel : 1 ≤ fuel) :
    wait_for_result env iv (some tmo) fuel =
      some (Except.error "Timed out waiting for result", 0) := by
  cases fuel with
  | zero => omega
  | succ f =>
    have htr : timeout_reached (some tmo) iv = true := by
      simp [timeout_reached]
      omega
    simp [wait_for_result, wait_for_result_aux, htr]

/-- C10 witness: timeout 2 equal to the fetch interval 2 raises with
zero fetches. -/
theorem wait_for_result_timeout_before_first_fetch_witness :
    wait_for_result pollEnvQueued 2 (some 2) 5 =
      some (Except.error "Timed out waiting for result", 0) :=
  wait_for_result_timeout_before_first_fetch pollEnvQueued 2 2 5
    (by decide) (by decide)

theorem wait_aux_error_fails_fast (env : PollEnv) (iv tmo : Nat) :
    ∀ (k i fuel : Nat),
    (∀ j, j < k → (env.getJob (i + j)).status = "queued" ∨
      (env.getJob (i + j)).status = "running") →
    ((env.getJob (i + k)).status = "error" ∨
      (env.getJob (i + k)).status = "unknown_status") →
    (i + k + 1) * iv < tmo →
    k + 1 ≤ fuel →
    wait_for_result_aux env iv (some tmo) fuel i =
      some (Except.error
        ("Job failed: " ++ (env.getJob (i + k)).progress_message), i + k + 1) := by
  intro k
  induction k with
  | zero =>
    intro i fuel hq herr htime hfuel
    cases fuel with
    | zero => omega
    | succ f =>
      have htime1 : (i + 1) * iv < tmo := by simpa using htime
      have htr : timeout_reached (some tmo) ((i + 1) * iv) = false := by
        simp [timeout_reached]
        omega
      have herr1 : (env.getJob i).status = "error" ∨
          (env.getJob i).status = "unknown_status" := by
        simpa using herr
      rcases herr1 with h | h <;>
        simp [wait_for_result_aux, htr, h]
  | succ k ihk =>
    intro i fuel hq herr htime hfuel
    cases fuel with
    | zero => omega
    | succ f =>
      have hq0 : (env.getJob i).status = "queued" ∨
          (env.getJob i).status = "running" := by
        have := hq 0 (by omega)
        simpa using this
      have htr : timeout_reached (some tmo) ((i + 1) * iv) = false := by
        simp [timeout_reached]
        have hmono : (i + 1) * iv ≤ (i + (k + 1) + 1) * iv :=
          Nat.mul_le_mul_right iv (by omega)
        omega
      have hidx : i + (k + 1) = (i + 1) + k := by omega
      have hrec := ihk (i + 1) f
        (fun j hj => by
          have := hq (j + 1) (by omega)
          have harg : i + (j + 1) = i + 1 + j := by omega
          rwa [harg] at this)
        (by rwa [hidx] at herr)
        (by
          have harg : i + (k + 1) + 1 = i + 1 + k + 1 := by omega
          rwa [harg] at htime)
        (by omega)
      rcases hq0 with h | h <;>
        · simp [wait_for_result_aux, htr, h]
          rw [hidx]
          exact hrec

/-- C7: whenever the first k status fetches answer queued or running —
the two are treated identically, polling just continues — and the k-th
fetch answers error or unknown_status (one shared failure path), the
poller fails right there: exactly k+1 `get_job` calls happen and the
raised message is "Job failed: " followed by the job's remote progress
message, so it contains that progress message; consequently `_submit`
surfaces the same error, and a sweep whose submissions all raise it —
in particular one whose job reached error with progress message
"simulator crashed" — raises an error containing "simulator crashed". -/
theorem wait_for_result_error_status_fails_fast (env : PollEnv)
    (iv tmo fuel k : Nat)
    (hq : ∀ j, j < k → (env.getJob j).status = "queued" ∨
      (env.getJob j).status = "running")
    (herr : (env.getJob k).status = "error" ∨
      (env.getJob k).status = "unknown_status")
    (htime : (k + 1) * iv < tmo)
    (hfuel : k + 1 ≤ fuel) :
    wait_for_result env iv (some tmo) fuel =
      some (Except.error
        ("Job failed: " ++ (env.getJob k).progress_message), k + 1) ∧
    (∃ pre post, "Job failed: " ++ (env.getJob k).progress_message =
      pre ++ (env.getJob k).progress_message ++ post) ∧
    (∀ (T : Type) (senv : SubmitEnv) (http : HttpEnv)
      (decode : String → Except String T) (m : ModelHandle),
      senv.poll = env → senv.create_model = some m →
      iv = DEFAULT_FETCH_INTERVAL → tmo = DEFAULT_TIMEOUT →
      submit senv http decode fuel =
        some (Except.error
          ("Job failed: " ++ (env.getJob k).progress_message))) ∧
    (∀ (id : Option String) (c r : Nat) (rs : List Nat)
      (submitF : Nat → Except String Nat),
      truthy id = true →
      (∀ q, submitF q = Except.error
        ("Job failed: " ++ (env.getJob k).progress_message)) →
      run_sweep id encodeProgVal Nat.add submitF c (r :: rs) =
        Except.error ("Job failed: " ++ (env.getJob k).progress_message)) := by
  have hmain : wait_for_result env iv (some tmo) fuel =
      some (Except.error
        ("Job failed: " ++ (env.getJob k).progress_message), k + 1) := by
    have := wait_aux_error_fails_fast env iv tmo k 0 fuel
      (fun j hj => by simpa using hq j hj)
      (by simpa using herr)
      (by simpa using htime)
      hfuel
    simpa [wait_for_result] using this
  refine ⟨hmain, ⟨"Job failed: ", "", by simp⟩, ?_, ?_⟩
  · intro T senv http decode m hpoll hmodel hiv htmo
    subst hiv htmo
    simp [submit, hmodel, hpoll, hmain]
  · intro id c r rs submitF hid hsub
    simp [run_sweep, hid, run_sweep_aux, hsub]

/-- C7 witness: a job answering error with progress message
"simulator crashed" on its first fetch makes the poller fail with
exactly that message after one fetch, and a sweep whose submission
raises it propagates it. -/
theorem wait_for_result_error_status_fails_fast_witness :
    wait_for_result pollEnvCrashed 2 (some 21600) 1 =
      some (Except.error ("Job failed: " ++ "simulator crashed"), 1) ∧
    run_sweep (some "sid-1") encodeProgVal Nat.add
      (fun _ => (Except.error ("Job failed: " ++ "simulator crashed") :
        Except String Nat)) 0 [5] =
      Except.error ("Job failed: " ++ "simulator crashed") := by
  have h := wait_for_result_error_status_fails_fast pollEnvCrashed 2 21600 1 0
    (fun j hj => absurd hj (Nat.not_lt_zero j))
    (Or.inl rfl) (by decide) (by decide)
  exact ⟨h.1, h.2.2.2 (some "sid-1") 0 5 [] _ rfl (fun q => rfl)⟩

/-- C4 counterexample: a job result whose inline payload is absent and
whose URL is the empty string — both fields "empty" in the claim's
sense — does not fail with the data-integrity error and does attempt a
network fetch: the code only raises when the URL is `None`, so it
performs an HTTP GET on the empty-string URL and uses the response
body. -/
theorem extract_payload_empty_url_string_triggers_fetch :
    extract_payload_from_response httpEnvOk { result := none, url := some "" } =
      (Except.ok "body", 1) ∧
    ((Except.ok "body" : Except String String), 1) ≠
      ((Except.error "Got result with empty data and url fields" :
        Except String String), 0) :=
  ⟨rfl, by simp⟩

/-- C4 amended: a non-empty inline payload is used directly with no
fetch; when the inline payload is empty (absent or the empty string)
and the URL is absent (`None`), decoding fails with the data-integrity
error and no fetch is attempted; when the inline payload is empty and
the URL is present — any string, including the empty string — exactly
one HTTP GET to that URL is performed, failing on a 4xx/5xx status and
otherwise using the response body. -/
theorem extract_payload_semantics (http : HttpEnv) (jr : QaaSJobResult) :
    (∀ r, jr.result = some r → r ≠ "" →
      extract_payload_from_response http jr = (Except.ok r, 0)) ∧
    ((jr.result = none ∨ jr.result = some "") → jr.url = none →
      extract_payload_from_response http jr =
        (Except.error "Got result with empty data and url fields", 0)) ∧
    (∀ u, (jr.result = none ∨ jr.result = some "") → jr.url = some u →
      (extract_payload_from_response http jr).2 = 1 ∧
      (400 ≤ (http u).status_code →
        extract_payload_from_response http jr =
          (Except.error "HTTP status error", 1)) ∧
      ((http u).status_code < 400 →
        extract_payload_from_response http jr =
          (Except.ok (http u).text, 1))) := by
  refine ⟨?_, ?_, ?_⟩
  · intro r h hne
    simp [extract_payload_from_response, h, hne]
  · intro hres hurl
    rcases hres with h | h <;>
      simp [extract_payload_from_response, fetch_from_url, h, hurl]
  · intro u hres hurl
    rcases hres with h | h <;>
      · refine ⟨?_, ?_, ?_⟩
        · by_cases hc : 400 ≤ (http u).status_code <;>
            simp [extract_payload_from_response, fetch_from_url, h, hurl, hc]
        · intro hc
          simp [extract_payload_from_response, fetch_from_url, h, hurl, hc]
        · intro hc
          have hc2 : ¬ 400 ≤ (http u).status_code := by omega
          simp [extract_payload_from_response, fetch_from_url, h, hurl, hc2]

/-- C4 amended witness: a non-empty inline payload is used directly and
an absent payload with absent URL raises the data error, both with zero
fetches. -/
theorem extract_payload_semantics_witness :
    extract_payload_from_response httpEnvOk
      { result := some "payload", url := none } = (Except.ok "payload", 0) ∧
    extract_payload_from_response httpEnvOk { result := none, url := none } =
      (Except.error "Got result with empty data and url fields", 0) := by
  have h1 := (extract_payload_semantics httpEnvOk
    { result := some "payload", url := none }).1 "payload" rfl (by decide)
  have h2 := (extract_payload_semantics httpEnvOk
    { result := none, url := none }).2.1 (Or.inl rfl) rfl
  exact ⟨h1, h2⟩

/-- C8: once the model push succeeded and polling completed with a
result list, a list of any length other than one makes the submission
fail with "Expected a single result for Cirq job", and a singleton list
makes the submission decode exactly that one result and return it. -/
theorem submit_requires_single_result {T : Type} (senv : SubmitEnv)
    (http : HttpEnv) (decode : String → Except String T) (fuel : Nat)
    (m : ModelHandle) (l : List QaaSJobResult) (n : Nat)
    (hmodel : senv.create_model = some m)
    (hwait : wait_for_result senv.poll DEFAULT_FETCH_INTERVAL
      (some DEFAULT_TIMEOUT) fuel = some (Except.ok l, n)) :
    (l.length ≠ 1 → submit senv http decode fuel =
      some (Except.error "Expected a single result for Cirq job")) ∧
    (∀ jr, l = [jr] → submit senv http decode fuel =
      some ((extract_payload_from_response http jr).1.bind decode)) := by
  constructor
  · intro hlen
    match l, hlen with
    | [], _ => simp [submit, hmodel, hwait]
    | a :: b :: t, _ => simp [submit, hmodel, hwait]
    | [a], hlen => simp at hlen
  · intro jr hl
    subst hl
    cases hext : extract_payload_from_response http jr with
    | mk res cnt =>
      cases res with
      | error e => simp [submit, hmodel, hwait, hext, Except.bind]
      | ok p => simp [submit, hmodel, hwait, hext, Except.bind]

/-- C8 witness: a completed job whose result list is empty makes the
submission fail with the single-result error. -/
theorem submit_requires_single_result_witness :
    submit submitEnvEmptyResults httpEnvOk
      (fun s => (Except.ok s : Except String String)) 1 =
      some (Except.error "Expected a single result for Cirq job") := by
  have h := submit_requires_single_result submitEnvEmptyResults httpEnvOk
    (fun s => (Except.ok s : Except String String)) 1 { id := "model-1" }
    [] 1 rfl rfl
  exact h.1 (by decide)

/-- C9: with both keyword filters supplied, a device is kept by the
listing exactly when it comes from the platform list, is of the "qsim"
backend kind, its live availability is "available" or "scarce", and its
qubit count meets the lower bound; the two post-filters commute, so the
resulting list does not depend on the order they are applied; and the
concrete scenario with qubit counts 5, 12, 20 and bound 10 returns
exactly the devices with counts 12 and 20. -/
theorem devices_filter_semantics (env : PlatformEnv) (op : Bool) (n : Nat)
    (platforms : List Platform) :
    (∀ p, p ∈ devices env platforms (some op) (some n) ↔
      p ∈ platforms ∧ p.backend_name = "qsim" ∧
      (availability env p = "available" ∨ availability env p = "scarce") ∧
      n ≤ p.num_qubits) ∧
    (∀ backends, filters env (some op) (some n) backends =
      filters_swapped env (some op) (some n) backends) ∧
    devices (fun _ => "available")
      [{ id := "a", backend_name := "qsim", num_qubits := 5 },
       { id := "b", backend_name := "qsim", num_qubits := 12 },
       { id := "c", backend_name := "qsim", num_qubits := 20 }]
      none (some 10) =
      [{ id := "b", backend_name := "qsim", num_qubits := 12 },
       { id := "c", backend_name := "qsim", num_qubits := 20 }] := by
  refine ⟨?_, ?_, ?_⟩
  · intro p
    simp [devices, filters, List.mem_filter, availability]
    tauto
  · intro backends
    simp only [filters, filters_swapped]
    rw [List.filter_filter, List.filter_filter]
    apply List.filter_congr
    intro a _
    exact Bool.and_comm _ _
  · decide

/-- C1 is a code bug: inside the `run_sweep` loop the local variable
`program` — initially the input circuit — is reassigned to the
`QuantumProgram` produced by `QuantumProgram.from_cirq_circuit`, so
from the second binding on, `cirq.protocols.resolve_parameters` is
applied to that `QuantumProgram` (which does not implement the
resolution protocol and is returned unchanged) instead of the original
circuit.  Instantiated on naturals with the injective serialization
`encodeProgVal` and resolution `Nat.add`: for the sweep over original
circuit 0 with bindings [5, 7], the submitted payloads are [10, 21],
whereas resolving each binding against the original circuit — what the
claim, the docstring and the Sampler contract require — would submit
[10, 14]; the full `run_sweep` on a started session returns one result
per binding, in order, but the second one is computed from the wrong
payload. -/
theorem run_sweep_reuses_serialized_program_for_later_bindings :
    run_sweep_programs encodeProgVal Nat.add (ProgVal.circuit 0) [5, 7] =
      [10, 21] ∧
    List.map (fun r => encodeProgVal (ProgVal.circuit (Nat.add 0 r))) [5, 7] =
      [10, 14] ∧
    ([10, 21] : List Nat) ≠ [10, 14] ∧
    run_sweep (some "sid-1") encodeProgVal Nat.add
      (fun q => (Except.ok q : Except String Nat)) 0 [5, 7] =
      Except.ok [10, 21] :=
  ⟨rfl, rfl, by decide, rfl⟩

end CirqScaleway
